import Mathlib

/-!
Shallow embedding of `src/docs/examples/linux-system-mcp-server.py`, a small
Linux system-information tool server, together with proofs about its command
gate, subprocess runner, process listing, disk-usage report, system snapshot
and tool dispatcher.  OS-level facilities (`psutil`, `subprocess`, the
filesystem) are modelled as explicit oracle inputs; everything the script
itself computes is translated directly from the source.
-/

namespace LinuxMCP

/-- Python `s.startswith(pre)`: `pre` is a literal character-prefix of `s`. -/
def pyStartswith (s pre : String) : Bool :=
  pre.data.isPrefixOf s.data

/-- Python `s.split()` on a list of characters: split on runs of whitespace,
dropping empty pieces. -/
def pySplitList : List Char → List String
  | [] => []
  | c :: cs =>
    if c.isWhitespace then
      pySplitList cs
    else
      String.mk ((c :: cs).takeWhile (fun d => !d.isWhitespace)) ::
        pySplitList (cs.dropWhile (fun d => !d.isWhitespace))
termination_by l => l.length
decreasing_by
  · simp only [List.length_cons]
    omega
  · simp only [List.length_cons]
    exact Nat.lt_succ_of_le (List.dropWhile_sublist _).length_le

/-- Python `command.split()`. -/
def pySplit (s : String) : List String := pySplitList s.data

/-- Python list slicing `l[:k]` for an integer bound `k`; a negative bound
counts from the end of the list, as in Python. -/
def pySliceTo {α : Type} (l : List α) (k : Int) : List α :=
  if 0 ≤ k then l.take k.toNat else l.take (l.length - (-k).toNat)

/-- The allowlist `safe_commands` of `run_safe_command`, verbatim from the
source. -/
def safe_commands : List String :=
  ["ls", "pwd", "whoami", "date", "uptime", "df", "free",
   "uname", "which", "whereis", "locate", "find", "grep",
   "cat", "head", "tail", "wc", "sort", "uniq", "cut",
   "ps", "top", "htop", "netstat", "ss", "lsof",
   "systemctl status", "journalctl", "dmesg"]

/-- `base_cmd = command.split()[0] if command.split() else ""`: the guarded
extraction of the first whitespace-separated token of the command. -/
def base_cmd (command : String) : String :=
  match pySplit command with
  | [] => ""
  | t :: _ => t

/-- `is_safe = any(command.startswith(safe_cmd) for safe_cmd in safe_commands)`. -/
def is_safe (command : String) : Bool :=
  safe_commands.any (fun safe_cmd => pyStartswith command safe_cmd)

/-- Outcome of the `subprocess.run(...)` call, supplied as an oracle: a
completed process (returncode, stdout, stderr), a `TimeoutExpired` exception,
or any other exception carrying a message. -/
inductive RunOutcome where
  | completed (returncode : Int) (stdout stderr : String)
  | timedOut
  | failed (msg : String)

/-- The refusal text returned for a command rejected by the gate. -/
def refusalText (command : String) : String :=
  "Command \x27" ++ command ++
    "\x27 is not allowed. Only safe, read-only commands are permitted.\n" ++
    "Allowed commands: " ++ String.intercalate ", " safe_commands

/-- The text returned for a normally completed command. -/
def completedText (command : String) (returncode : Int) (stdout stderr : String) :
    String :=
  "Command: " ++ command ++ "\nExit code: " ++ toString returncode ++ "\n\n" ++
    (if stdout ≠ "" then "Output:\n" ++ stdout ++ "\n" else "") ++
    (if stderr ≠ "" then "Error:\n" ++ stderr ++ "\n" else "")

/-- The text returned when `subprocess.TimeoutExpired` is caught. -/
def timeoutText (command : String) : String :=
  "Command \x27" ++ command ++ "\x27 timed out after 30 seconds"

/-- `run_safe_command`: gate the command on `is_safe`, then run it through the
subprocess runner (modelled by the oracle `runner`). -/
def run_safe_command (runner : String → RunOutcome) (command : String) : String :=
  if is_safe command then
    match runner command with
    | .completed rc out err => completedText command rc out err
    | .timedOut => timeoutText command
    | .failed msg => "Error running command: " ++ msg
  else
    refusalText command

/-- First character of a string, demanded to be a non-whitespace character;
every allowlist entry satisfies this. -/
def headNonWs (p : String) : Bool :=
  match p.data.head? with
  | some c => !c.isWhitespace
  | none => false

theorem is_safe_eq_false_of_whitespace (command : String)
    (h : ∀ c ∈ command.data, c.isWhitespace = true) : is_safe command = false := by
  rw [is_safe, List.any_eq_false]
  intro p hp
  have hall : safe_commands.all headNonWs = true := by decide
  have hnw := List.all_eq_true.mp hall p hp
  simp only [pyStartswith]
  cases hpd : p.data with
  | nil => simp [headNonWs, hpd] at hnw
  | cons c cs =>
    simp only [headNonWs, hpd, List.head?] at hnw
    intro hpre
    rw [ List.isPrefixOf_iff_prefix] at hpre
    obtain ⟨t, ht⟩ := hpre
    have hc : c ∈ command.data := by
      rw [← ht]
      exact List.mem_cons_self c (cs ++ t)
    rw [h c hc] at hnw
    simp at hnw

theorem pySplitList_eq_nil (l : List Char) (h : ∀ c ∈ l, c.isWhitespace = true) :
    pySplitList l = [] := by
  induction l with
  | nil => rw [pySplitList]
  | cons c cs ih =>
    rw [pySplitList]
    rw [if_pos (h c (List.mem_cons_self c cs))]
    exact ih (fun d hd => h d (List.mem_cons_of_mem c hd))

/-- C1: `is_safe` (the gate inside `run_safe_command`) returns `true` iff the
raw command string has one of the allowlist entries as a literal string
prefix; in particular `is_safe "systemctl status foo" = true`,
`is_safe "systemctl stop foo" = false` and `is_safe "lsofx" = true`. -/
theorem c1_is_safe_iff :
    (∀ command : String,
        is_safe command = true ↔ ∃ p ∈ safe_commands, p.data <+: command.data) ∧
      is_safe "systemctl status foo" = true ∧
      is_safe "systemctl stop foo" = false ∧
      is_safe "lsofx" = true := by
  refine ⟨fun command => ?_, by decide, by decide, by decide⟩
  simp only [is_safe, List.any_eq_true, pyStartswith]
  constructor
  · rintro ⟨p, hp, hpre⟩
    refine ⟨p, hp, ?_⟩
    rwa [← List.isPrefixOf_iff_prefix]
  · rintro ⟨p, hp, hpre⟩
    refine ⟨p, hp, ?_⟩
    rwa [ List.isPrefixOf_iff_prefix]

theorem c1_is_safe_iff_witness : is_safe "lsofx" = true :=
  c1_is_safe_iff.2.2.2

/-- C2: every command rejected by the gate yields the refusal message listing
the full allowlist, and the subprocess runner is never invoked (the result
does not depend on the runner). -/
theorem c2_rejection_no_runner (command : String) (h : is_safe command = false) :
    (∀ runner, run_safe_command runner command = refusalText command) ∧
      refusalText command =
        "Command \x27" ++ command ++
          "\x27 is not allowed. Only safe, read-only commands are permitted.\n" ++
          "Allowed commands: " ++ String.intercalate ", " safe_commands ∧
      ∀ runner₁ runner₂,
        run_safe_command runner₁ command = run_safe_command runner₂ command := by
  refine ⟨fun runner => ?_, rfl, fun r₁ r₂ => ?_⟩ <;>
    simp [run_safe_command, h]

theorem c2_rejection_no_runner_witness :
    run_safe_command (fun _ => RunOutcome.failed "boom") "rm -rf /tmp/x" =
      refusalText "rm -rf /tmp/x" :=
  (c2_rejection_no_runner "rm -rf /tmp/x" (by decide)).1
    (fun _ => RunOutcome.failed "boom")

theorem timeout_head_char (a b : String) :
    (("Command \x27" ++ a) ++ b).data.get? 7 = some (Char.ofNat 32) := rfl

theorem completed_head_char (a b c d e f : String) :
    (((((("Command: " ++ a) ++ b) ++ c) ++ d) ++ e) ++ f).data.get? 7 =
      some (Char.ofNat 58) := rfl

/-- C3: on subprocess timeout the result is the distinct timeout outcome: the
`timedOut` outcome carries no exit code, its text differs from the text of
every normally completing command, and a safe command whose runner times out
yields exactly that text. -/
theorem c3_timeout_distinct :
    (∀ cmd cmd' : String, ∀ rc : Int, ∀ out err : String,
        timeoutText cmd ≠ completedText cmd' rc out err) ∧
      (∀ rc out err, RunOutcome.timedOut ≠ RunOutcome.completed rc out err) ∧
      ∀ runner cmd, is_safe cmd = true → runner cmd = RunOutcome.timedOut →
        run_safe_command runner cmd = timeoutText cmd := by
  refine ⟨?_, ?_, ?_⟩
  · intro cmd cmd' rc out err h
    have h2 : (timeoutText cmd).data.get? 7 =
        (completedText cmd' rc out err).data.get? 7 :=
      congrArg (fun s => s.data.get? 7) h
    rw [timeoutText, completedText, timeout_head_char, completed_head_char] at h2
    exact absurd h2 (by decide)
  · intro rc out err h
    exact RunOutcome.noConfusion h
  · intro runner cmd hs ht
    simp [run_safe_command, hs, ht]

theorem c3_timeout_distinct_witness :
    run_safe_command (fun _ => RunOutcome.timedOut) "uptime" = timeoutText "uptime" :=
  c3_timeout_distinct.2.2 (fun _ => RunOutcome.timedOut) "uptime" (by decide) rfl

/-- C10: for a command consisting only of whitespace (including the empty
string), the guarded base-token extraction is total and returns `""`, the gate
rejects the command, and `run_safe_command` returns the refusal message for
every runner. -/
theorem c10_whitespace_only_rejected (command : String)
    (h : ∀ c ∈ command.data, c.isWhitespace = true) :
    base_cmd command = "" ∧ is_safe command = false ∧
      ∀ runner, run_safe_command runner command = refusalText command := by
  have hsafe := is_safe_eq_false_of_whitespace command h
  have h0 : pySplit command = [] := pySplitList_eq_nil command.data h
  exact ⟨by simp [base_cmd, h0], hsafe,
    fun runner => by simp [run_safe_command, hsafe]⟩

theorem c10_whitespace_only_rejected_witness :
    base_cmd "" = "" ∧ is_safe "  " = false :=
  ⟨(c10_whitespace_only_rejected "" (by decide)).1,
    (c10_whitespace_only_rejected "  " (by decide)).2.1⟩

/-- One row of `psutil.process_iter(['pid', 'name', 'cpu_percent',
'memory_percent'])` that survived the per-process exception filter in
`list_processes`.  CPU and memory percentages are Python floats; only order
comparisons and formatting are applied to them, so they are modelled as
rationals. -/
structure ProcInfo where
  pid : Nat
  name : String
  cpu_percent : ℚ
  memory_percent : ℚ
deriving DecidableEq

/-- The key order of `processes.sort(key=lambda x: x.get('cpu_percent', 0),
reverse=True)`: `a` may precede `b` when `b`'s CPU percentage does not exceed
`a`'s. -/
def cpuGe (a b : ProcInfo) : Prop := b.cpu_percent ≤ a.cpu_percent

instance : DecidableRel cpuGe := fun a b =>
  inferInstanceAs (Decidable (b.cpu_percent ≤ a.cpu_percent))

instance : IsTotal ProcInfo cpuGe :=
  ⟨fun a b => le_total b.cpu_percent a.cpu_percent⟩

instance : IsTrans ProcInfo cpuGe :=
  ⟨fun _ _ _ hab hbc => le_trans hbc hab⟩

/-- `processes.sort(key=lambda x: x.get('cpu_percent', 0), reverse=True)`.
Python's `list.sort` is a stable sort, and a stable sort by a total key has a
unique result, so it is modelled by insertion sort with the key order. -/
def sortByCpu (procs : List ProcInfo) : List ProcInfo :=
  procs.insertionSort cpuGe

/-- The row sequence computed by `list_processes`: stable descending CPU sort
followed by the Python slice `processes[:limit]`. -/
def list_processes_rows (procs : List ProcInfo) (limit : Int) : List ProcInfo :=
  pySliceTo (sortByCpu procs) limit

/-- Left-justified space padding, Python `f"{s:<w}"` (no truncation). -/
def padTo (w : Nat) (s : String) : String :=
  s ++ String.mk (List.replicate (w - s.length) (Char.ofNat 32))

/-- Python `f"{q:.1f}"` fixed-point formatting with one decimal digit.
Python rounds the binary float half-to-even; the model works over `ℚ` and
rounds half away from zero, which agrees except on exact midpoints. -/
def fmtF1 (q : ℚ) : String :=
  let n : Int := round (q * 10)
  (if n < 0 then "-" else "") ++
    toString (n.natAbs / 10) ++ "." ++ toString (n.natAbs % 10)

/-- One table row of `list_processes`:
`f"{pid:<8} {name[:19]:<20} {cpu:<8.1f} {mem:<8.1f}\n"`. -/
def procRow (p : ProcInfo) : String :=
  padTo 8 (toString p.pid) ++ " " ++ padTo 20 (p.name.take 19) ++ " " ++
    padTo 8 (fmtF1 p.cpu_percent) ++ " " ++ padTo 8 (fmtF1 p.memory_percent) ++ "\n"

/-- The full text produced by `list_processes`. -/
def list_processes_text (procs : List ProcInfo) (limit : Int) : String :=
  "Top " ++ toString limit ++ " Processes by CPU Usage:\n" ++
    padTo 8 "PID" ++ " " ++ padTo 20 "Name" ++ " " ++ padTo 8 "CPU%" ++ " " ++
    padTo 8 "Memory%" ++ "\n" ++
    String.mk (List.replicate 50 (Char.ofNat 45)) ++ "\n" ++
    String.join ((list_processes_rows procs limit).map procRow)

/-- Concrete process rows used in counterexamples and witnesses. -/
def procA : ProcInfo := ⟨1, "a", 5, 1⟩

def procB : ProcInfo := ⟨2, "b", 3, 1⟩

/-- C4 counterexample: `limit = -1` is `≤ 0`, yet on a two-process list the
Python slice `processes[:-1]` keeps the first sorted row instead of returning
the empty sequence. -/
theorem c4_counterexample :
    (-1 : Int) ≤ 0 ∧ list_processes_rows [procA, procB] (-1) ≠ [] := by
  constructor
  · decide
  · decide

/-- C4 (amended): `limit = 0` — and more generally any `limit ≤ -count` —
yields the empty sequence; a negative `limit` instead drops the last
`-limit` sorted rows (Python slice semantics); and any `limit ≥ count`
returns all processes (sorted). -/
theorem c4_amended :
    (∀ procs : List ProcInfo, list_processes_rows procs 0 = []) ∧
      (∀ (procs : List ProcInfo) (limit : Int),
        limit ≤ -(procs.length : Int) → list_processes_rows procs limit = []) ∧
      (∀ (procs : List ProcInfo) (limit : Int), limit < 0 →
        list_processes_rows procs limit =
          (sortByCpu procs).take (procs.length - (-limit).toNat)) ∧
      ∀ (procs : List ProcInfo) (limit : Int),
        (procs.length : Int) ≤ limit →
          list_processes_rows procs limit = sortByCpu procs := by
  have hlen : ∀ procs : List ProcInfo, (sortByCpu procs).length = procs.length :=
    fun procs => List.length_insertionSort cpuGe procs
  refine ⟨?_, ?_, ?_, ?_⟩
  · intro procs
    simp [list_processes_rows, pySliceTo]
  · intro procs limit hle
    rw [list_processes_rows, pySliceTo]
    split
    · next h0 =>
      have h1 : limit.toNat = 0 ∨ procs.length = 0 := by omega
      rcases h1 with h1 | h1
      · simp [h1]
      · have h2 : (sortByCpu procs).length = 0 := by rw [hlen]; exact h1
        rw [List.length_eq_zero.mp h2]
        simp
    · next h0 =>
      rw [hlen]
      have h2 : procs.length - (-limit).toNat = 0 := by omega
      rw [h2]
      simp
  · intro procs limit hneg
    rw [list_processes_rows, pySliceTo, if_neg (by omega), hlen]
  · intro procs limit hge
    rw [list_processes_rows, pySliceTo, if_pos (by omega)]
    apply List.take_of_length_le
    rw [hlen]
    omega

theorem c4_amended_witness :
    list_processes_rows [procA, procB] 5 = sortByCpu [procA, procB] :=
  c4_amended.2.2.2 [procA, procB] 5 (by decide)

/-- The spec's literal reading of "truncated to the first `limit` rows". -/
def specFirstRows (l : List ProcInfo) (limit : Int) : List ProcInfo :=
  l.take limit.toNat

/-- C5 counterexample: at `limit = -1` the code's Python slice keeps the first
row of a two-row list, which is not "the first `limit` rows" (an empty take). -/
theorem c5_counterexample :
    list_processes_rows [procA, procB] (-1) ≠
      specFirstRows (sortByCpu [procA, procB]) (-1) := by decide

/-- C5 (amended): for every process list and every limit, the result is the
Python slice `[:limit]` of the stable descending CPU sort: that sorted list is
sorted descending by CPU percent, is a permutation of the input, rows with
equal CPU percent keep their enumeration order, and for `limit ≥ 0` the slice
is exactly the first `limit` sorted rows. -/
theorem c5_amended (procs : List ProcInfo) (limit : Int) :
    list_processes_rows procs limit = pySliceTo (sortByCpu procs) limit ∧
      List.Sorted cpuGe (sortByCpu procs) ∧
      (sortByCpu procs).Perm procs ∧
      (∀ q : ℚ, (sortByCpu procs).filter (fun p => decide (p.cpu_percent = q)) =
        procs.filter (fun p => decide (p.cpu_percent = q))) ∧
      (0 ≤ limit →
        list_processes_rows procs limit = (sortByCpu procs).take limit.toNat) := by
  refine ⟨rfl, List.sorted_insertionSort cpuGe procs,
    List.perm_insertionSort cpuGe procs, ?_, ?_⟩
  · intro q
    set p : ProcInfo → Bool := fun x => decide (x.cpu_percent = q) with hp
    have hmemq : ∀ a ∈ procs.filter p, a.cpu_percent = q := by
      intro a ha
      have := (List.mem_filter.mp ha).2
      rw [hp] at this
      exact of_decide_eq_true this
    have hpair : (procs.filter p).Pairwise cpuGe := by
      apply List.pairwise_of_forall_mem_list
      intro a ha b hb
      rw [cpuGe, hmemq a ha, hmemq b hb]
    have hsub : List.Sublist (procs.filter p) (sortByCpu procs) :=
      List.sublist_insertionSort hpair (List.filter_sublist procs)
    have hsub2 : List.Sublist ((procs.filter p).filter p)
        ((sortByCpu procs).filter p) :=
      hsub.filter p
    rw [List.filter_eq_self.mpr (fun a ha => by
      rw [hp]
      exact decide_eq_true (hmemq a ha))] at hsub2
    have hperm : List.Perm ((sortByCpu procs).filter p) (procs.filter p) :=
      (List.perm_insertionSort cpuGe procs).filter p
    exact (hsub2.eq_of_length hperm.length_eq.symm).symm
  · intro h0
    rw [list_processes_rows, pySliceTo, if_pos h0]

theorem c5_amended_witness :
    list_processes_rows [procA, procB] 1 =
      (sortByCpu [procA, procB]).take (1 : Int).toNat :=
  (c5_amended [procA, procB] 1).2.2.2.2 (by decide)

/-- The result of `psutil.disk_usage(mountpoint)` for one partition (byte
counts). -/
structure DiskUsage where
  total : Nat
  used : Nat
  free : Nat
deriving DecidableEq

/-- One entry of `psutil.disk_partitions()`; `usage = none` models the
usage query raising `PermissionError`. -/
structure PartitionInfo where
  device : String
  mountpoint : String
  usage : Option DiskUsage
deriving DecidableEq

/-- Bytes to gigabytes, `bytes / (1024**3)`, over `ℚ`. -/
def toGB (n : Nat) : ℚ := (n : ℚ) / (1024 ^ 3)

/-- The output row for one partition, or the `ZeroDivisionError` raised by
`(usage.used / usage.total) * 100` when the reported total is zero — that
exception escapes the per-partition `except PermissionError` and is caught by
the outer handler of `check_disk_usage`. -/
def disk_row (p : PartitionInfo) : Except String String :=
  match p.usage with
  | some u =>
    if u.total = 0 then
      .error "division by zero"
    else
      .ok (padTo 20 (p.device.take 19) ++ " " ++ padTo 10 (fmtF1 (toGB u.total)) ++ " " ++
        padTo 10 (fmtF1 (toGB u.used)) ++ " " ++ padTo 10 (fmtF1 (toGB u.free)) ++ " " ++
        padTo 6 (fmtF1 ((u.used : ℚ) / (u.total : ℚ) * 100)) ++ " " ++
        p.mountpoint ++ "\n")
  | none =>
    .ok (padTo 20 (p.device.take 19) ++ " " ++ padTo 10 "N/A" ++ " " ++
      padTo 10 "N/A" ++ " " ++ padTo 10 "N/A" ++ " " ++ padTo 6 "N/A" ++ " " ++
      p.mountpoint ++ "\n")

/-- The row loop of `check_disk_usage`: one row per partition, aborted by the
first unhandled exception. -/
def disk_rows : List PartitionInfo → Except String (List String)
  | [] => .ok []
  | p :: ps =>
    match disk_row p with
    | .error e => .error e
    | .ok r =>
      match disk_rows ps with
      | .error e => .error e
      | .ok rs => .ok (r :: rs)

/-- `check_disk_usage`: header plus one row per partition, or the outer
`except Exception` text when the loop raised. -/
def check_disk_usage (parts : List PartitionInfo) : String :=
  match disk_rows parts with
  | .ok rows =>
    "Disk Usage:\n" ++
      padTo 20 "Filesystem" ++ " " ++ padTo 10 "Size" ++ " " ++ padTo 10 "Used" ++ " " ++
      padTo 10 "Available" ++ " " ++ padTo 6 "Use%" ++ " " ++ "Mounted on" ++ "\n" ++
      String.mk (List.replicate 80 (Char.ofNat 45)) ++ "\n" ++
      String.join rows
  | .error e => "Error checking disk usage: " ++ e

/-- C8 counterexample: a partition whose usage query succeeds with
`total = 0` makes the row loop raise `ZeroDivisionError`; the outer handler
then replaces the whole table with an error message, so the output has no
per-partition rows at all. -/
theorem c8_counterexample :
    disk_rows [⟨"/dev/weird", "/mnt/weird", some ⟨0, 0, 0⟩⟩] =
        .error "division by zero" ∧
      check_disk_usage [⟨"/dev/weird", "/mnt/weird", some ⟨0, 0, 0⟩⟩] =
        "Error checking disk usage: division by zero" :=
  ⟨rfl, rfl⟩

theorem disk_rows_ok (parts : List PartitionInfo) :
    (∀ p ∈ parts, ∀ u, p.usage = some u → u.total ≠ 0) →
    ∃ rows, disk_rows parts = .ok rows ∧ rows.length = parts.length := by
  induction parts with
  | nil => exact fun _ => ⟨[], rfl, rfl⟩
  | cons p ps ih =>
    intro h
    obtain ⟨rows, hrows, hlen⟩ :=
      ih (fun x hx u hu => h x (List.mem_cons_of_mem p hx) u hu)
    have hrow : ∃ r, disk_row p = .ok r := by
      cases hu : p.usage with
      | none =>
        simp only [disk_row, hu]
        exact ⟨_, rfl⟩
      | some u =>
        simp only [disk_row, hu]
        rw [if_neg (h p (List.mem_cons_self p ps) u hu)]
        exact ⟨_, rfl⟩
    obtain ⟨r, hr⟩ := hrow
    refine ⟨r :: rows, ?_, by simp [hlen]⟩
    rw [disk_rows, hr, hrows]

/-- C8 (amended): provided every successfully queried partition reports a
nonzero total (so `used/total` cannot raise `ZeroDivisionError`),
`check_disk_usage` produces exactly one row per partition, and a partition
whose usage query raised `PermissionError` keeps its row with the literal
`"N/A"` in all four numeric columns (Size, Used, Available, Use%). -/
theorem c8_one_row_per_partition (parts : List PartitionInfo)
    (h : ∀ p ∈ parts, ∀ u, p.usage = some u → u.total ≠ 0) :
    (∃ rows, disk_rows parts = .ok rows ∧ rows.length = parts.length) ∧
      ∀ p ∈ parts, p.usage = none →
        disk_row p = .ok (padTo 20 (p.device.take 19) ++ " " ++ padTo 10 "N/A" ++ " " ++
          padTo 10 "N/A" ++ " " ++ padTo 10 "N/A" ++ " " ++ padTo 6 "N/A" ++ " " ++
          p.mountpoint ++ "\n") := by
  refine ⟨disk_rows_ok parts h, fun p _ hnone => ?_⟩
  rw [disk_row, hnone]

theorem c8_one_row_per_partition_witness :
    (disk_rows [(⟨"/dev/sda1", "/", some ⟨4294967296, 1073741824, 3221225472⟩⟩ :
        PartitionInfo),
      ⟨"/dev/sdb1", "/mnt/secret", none⟩]).isOk = true := by
  obtain ⟨rows, hrows, _⟩ :=
    (c8_one_row_per_partition
      [⟨"/dev/sda1", "/", some ⟨4294967296, 1073741824, 3221225472⟩⟩,
       ⟨"/dev/sdb1", "/mnt/secret", none⟩]
      (by
        intro p hp u hu
        fin_cases hp
        · simp at hu
          subst hu
          decide
        · simp at hu)).1
  rw [hrows]
  rfl

/-- The `platform.*` OS facts of the snapshot, always gathered. -/
structure OsFacts where
  system : String
  release : String
  version : String
  machine : String
  processor : String
deriving DecidableEq

/-- The `platform.python_*` facts, always gathered. -/
structure PythonFacts where
  version : String
  implementation : String
deriving DecidableEq

/-- Raw result of `psutil.virtual_memory()`. -/
structure MemRaw where
  total : Nat
  available : Nat
  percent : ℚ
deriving DecidableEq

/-- Raw results of the `psutil.cpu_count` / `cpu_percent` calls. -/
structure CpuRaw where
  cores : Nat
  logical_cores : Nat
  percent : ℚ
deriving DecidableEq

/-- Environment oracle for `get_system_info`: the always-available `platform`
facts plus the three best-effort sources; `none` models the corresponding
`try` block raising (unreadable `/etc/os-release`, failing `psutil` call). -/
structure SysEnv where
  timestamp : String
  hostname : String
  os : OsFacts
  python : PythonFacts
  osRelease : Option (List String)
  memory : Option MemRaw
  cpu : Option CpuRaw

/-- Python `s.strip()`: drop leading and trailing whitespace. -/
def pyStrip (s : String) : String :=
  String.mk
    (((s.data.dropWhile Char.isWhitespace).reverse.dropWhile Char.isWhitespace).reverse)

/-- Python `s.strip('"')`: drop leading and trailing double-quote characters. -/
def stripQuotes (s : String) : String :=
  String.mk
    (((s.data.dropWhile (fun c => c = Char.ofNat 34)).reverse.dropWhile
      (fun c => c = Char.ofNat 34)).reverse)

/-- Python `s.split(sep, 1)`: the pieces before and after the first
occurrence of `sep` (the whole string and `""` when `sep` is absent). -/
def splitOnce (s : String) (sep : Char) : String × String :=
  match s.data.span (fun d => d ≠ sep) with
  | (pre, _ :: post) => (String.mk pre, String.mk post)
  | (pre, []) => (String.mk pre, "")

/-- Python dict assignment `d[k] = v`: replace in place, or append. -/
def dictInsert (d : List (String × String)) (k v : String) :
    List (String × String) :=
  if d.any (fun kv => kv.1 == k) then
    d.map (fun kv => if kv.1 == k then (k, v) else kv)
  else
    d ++ [(k, v)]

/-- The `/etc/os-release` parsing loop of `get_system_info`: for each line
containing `'='`, strip the line, split at the first `'='`, and store the
key with the value stripped of double quotes. -/
def parseOsRelease (lines : List String) : List (String × String) :=
  lines.foldl
    (fun d line =>
      if (Char.ofNat 61) ∈ line.data then
        let kv := splitOnce (pyStrip line) (Char.ofNat 61)
        dictInsert d kv.1 (stripQuotes kv.2)
      else d)
    []

/-- Python `round(q, 2)` modelled over `ℚ` (Python rounds the binary float
half-to-even; midpoints differ, nothing here depends on them). -/
def round2 (q : ℚ) : ℚ := (round (q * 100) : ℤ) / 100

/-- The formatted memory block: totals in GB rounded to 2 decimals. -/
structure MemBlock where
  total_gb : ℚ
  available_gb : ℚ
  percent_used : ℚ
deriving DecidableEq

/-- The formatted CPU block. -/
structure CpuBlock where
  cores : Nat
  logical_cores : Nat
  current_percent : ℚ
deriving DecidableEq

/-- The snapshot dict assembled by `get_system_info`. -/
structure SystemInfo where
  timestamp : String
  hostname : String
  os : OsFacts
  python : PythonFacts
  distribution : Option (List (String × String))
  memory : Option MemBlock
  cpu : Option CpuBlock

/-- `get_system_info`: the required base facts plus three independent
best-effort blocks, each populated exactly when its own source is available. -/
def get_system_info (env : SysEnv) : SystemInfo :=
  ⟨env.timestamp, env.hostname, env.os, env.python,
    env.osRelease.map parseOsRelease,
    env.memory.map (fun m =>
      ⟨round2 (toGB m.total), round2 (toGB m.available), m.percent⟩),
    env.cpu.map (fun c => ⟨c.cores, c.logical_cores, c.percent⟩)⟩

/-- C7: `get_system_info` never fails as a whole: the snapshot always carries
the timestamp, hostname, OS facts and Python facts, and each optional
sub-block (distribution, memory, cpu) is present exactly when its own source
is available, so a failure of one cannot affect the others or the required
fields — in particular the hostname and OS block are present even when the
distro file is absent. -/
theorem c7_best_effort_blocks (env : SysEnv) :
    (get_system_info env).hostname = env.hostname ∧
      (get_system_info env).os = env.os ∧
      (get_system_info env).timestamp = env.timestamp ∧
      (get_system_info env).python = env.python ∧
      (get_system_info env).distribution.isSome = env.osRelease.isSome ∧
      (get_system_info env).memory.isSome = env.memory.isSome ∧
      (get_system_info env).cpu.isSome = env.cpu.isSome ∧
      (get_system_info env).distribution = env.osRelease.map parseOsRelease := by
  refine ⟨rfl, rfl, rfl, rfl, ?_, ?_, ?_, rfl⟩ <;>
    simp [get_system_info]

/-- One address entry of `psutil.net_if_addrs()`; the source compares the
family by its name string (`AF_INET`, `AF_INET6`, `AF_PACKET`). -/
structure IfAddr where
  family : String
  address : String
  netmask : Option String

/-- One entry of `psutil.net_if_stats()`. -/
structure IfStats where
  isup : Bool
  speed : Int

/-- Environment oracle for `get_network_info`. -/
structure NetEnv where
  interfaces : List (String × List IfAddr)
  stats : List (String × IfStats)

/-- Python `interface in stats` / `stats[interface]` on the stats dict. -/
def lookupStats (stats : List (String × IfStats)) (iface : String) :
    Option IfStats :=
  match stats.find? (fun kv => kv.1 == iface) with
  | some kv => some kv.2
  | none => none

/-- The per-address lines of `get_network_info` (note `if addr.netmask:`
is Python truthiness: both `None` and `""` suppress the Netmask line). -/
def addrLines (addr : IfAddr) : String :=
  if addr.family == "AF_INET" then
    "  IPv4: " ++ addr.address ++ "\n" ++
      (match addr.netmask with
       | some nm => if nm == "" then "" else "  Netmask: " ++ nm ++ "\n"
       | none => "")
  else if addr.family == "AF_INET6" then
    "  IPv6: " ++ addr.address ++ "\n"
  else if addr.family == "AF_PACKET" then
    "  MAC: " ++ addr.address ++ "\n"
  else ""

/-- `get_network_info`: one block per interface. -/
def get_network_info (net : NetEnv) : String :=
  "Network Interfaces:\n" ++
    String.join (net.interfaces.map (fun iface =>
      "\n" ++ iface.1 ++ ":\n" ++
        (match lookupStats net.stats iface.1 with
         | some st =>
           "  Status: " ++ (if st.isup then "UP" else "DOWN") ++ "\n" ++
             "  Speed: " ++ toString st.speed ++ " Mbps\n"
         | none => "") ++
        String.join (iface.2.map addrLines)))

/-- JSON string escaping as in `json.dumps` (the escapes that can occur
here: backslash, double quote, and ASCII control whitespace). -/
def jsonEscape (s : String) : String :=
  String.join (s.data.map (fun c =>
    if c = Char.ofNat 92 then "\\\\"
    else if c = Char.ofNat 34 then "\\\""
    else if c = Char.ofNat 10 then "\\n"
    else if c = Char.ofNat 13 then "\\r"
    else if c = Char.ofNat 9 then "\\t"
    else String.mk [c]))

/-- A JSON string literal. -/
def jstr (s : String) : String := "\"" ++ jsonEscape s ++ "\""

/-- Decimal digits of a fractional part `0 ≤ q < 1`, up to `fuel` digits;
used to model the decimal rendering of a Python float in `json.dumps`
output (the floats produced here carry at most a few fractional digits). -/
def fracDigits : Nat → ℚ → String
  | 0, _ => ""
  | fuel + 1, q =>
    if q = 0 then ""
    else
      let d : Nat := (⌊q * 10⌋).toNat
      toString d ++ fracDigits fuel (q * 10 - (d : ℚ))

/-- Rendering of a float value in `json.dumps` output, modelled over `ℚ`. -/
def renderQ (q : ℚ) : String :=
  let a := |q|
  let ip := (⌊a⌋).toNat
  let ds := fracDigits 6 (a - (ip : ℚ))
  (if q < 0 then "-" else "") ++ toString ip ++ "." ++ (if ds = "" then "0" else ds)

/-- `json.dumps(..., indent=2)`: the members of an object, one per line. -/
def renderPairs (ind : String) (ps : List (String × String)) : String :=
  String.intercalate ",\n" (ps.map (fun kv => ind ++ jstr kv.1 ++ ": " ++ kv.2))

/-- `json.dumps(..., indent=2)`: an object at enclosing indentation `ind`. -/
def renderObj (ind : String) (ps : List (String × String)) : String :=
  if ps.isEmpty then "\x7b\x7d"
  else "\x7b\n" ++ renderPairs (ind ++ "  ") ps ++ "\n" ++ ind ++ "\x7d"

/-- `json.dumps(info, indent=2)` on the snapshot dict: keys in insertion
order, the optional blocks appended only when gathered. -/
def renderInfo (i : SystemInfo) : String :=
  renderObj ""
    ([("timestamp", jstr i.timestamp),
      ("hostname", jstr i.hostname),
      ("os", renderObj "  "
        [("system", jstr i.os.system), ("release", jstr i.os.release),
         ("version", jstr i.os.version), ("machine", jstr i.os.machine),
         ("processor", jstr i.os.processor)]),
      ("python", renderObj "  "
        [("version", jstr i.python.version),
         ("implementation", jstr i.python.implementation)])]
      ++ (match i.distribution with
          | some kvs =>
            [("distribution",
              renderObj "  " (kvs.map (fun kv => (kv.1, jstr kv.2))))]
          | none => [])
      ++ (match i.memory with
          | some m =>
            [("memory", renderObj "  "
              [("total_gb", renderQ m.total_gb),
               ("available_gb", renderQ m.available_gb),
               ("percent_used", renderQ m.percent_used)])]
          | none => [])
      ++ (match i.cpu with
          | some c =>
            [("cpu", renderObj "  "
              [("cores", toString c.cores),
               ("logical_cores", toString c.logical_cores),
               ("current_percent", renderQ c.current_percent)])]
          | none => []))

/-- The text returned by the `get_system_info` tool. -/
def get_system_info_text (env : SysEnv) : String :=
  "System Information:\n" ++ renderInfo (get_system_info env)

/-- The input-schema entry of one tool parameter. -/
structure ParamSpec where
  type : String
  description : String
  default : Option Int
deriving DecidableEq

/-- One registered tool of the dispatcher. -/
structure ToolDescriptor where
  name : String
  description : String
  properties : List (String × ParamSpec)
  required : List String
deriving DecidableEq

/-- The fixed tool registry returned by `list_tools`, verbatim from the
source. -/
def list_tools : List ToolDescriptor :=
  [⟨"get_system_info", "Get comprehensive Linux system information", [], []⟩,
   ⟨"list_processes", "List running processes with memory and CPU usage",
     [("limit", ⟨"integer", "Number of processes to show (default: 10)", some 10⟩)],
     []⟩,
   ⟨"check_disk_usage", "Check disk usage for all mounted filesystems", [], []⟩,
   ⟨"get_network_info", "Get network interface information", [], []⟩,
   ⟨"run_command", "Run a safe shell command (restricted to read-only operations)",
     [("command",
       ⟨"string", "Command to run (limited to safe, read-only commands)", none⟩)],
     ["command"]⟩]

/-- The names of the registered tools. -/
def toolNames : List String := list_tools.map ToolDescriptor.name

/-- The argument bag of a tool invocation: the two arguments the dispatcher
reads with `arguments.get(...)`, each possibly absent. -/
structure Arguments where
  limit : Option Int
  command : Option String

/-- The combined environment oracle behind the five tools. -/
structure WorldEnv where
  sys : SysEnv
  procs : List ProcInfo
  parts : List PartitionInfo
  net : NetEnv
  runner : String → RunOutcome

/-- `call_tool`: dispatch on the tool name; an unknown name raises
`ValueError(f"Unknown tool: {name}")`, modelled as `Except.error`. -/
def call_tool (world : WorldEnv) (name : String) (args : Arguments) :
    Except String String :=
  if name = "get_system_info" then .ok (get_system_info_text world.sys)
  else if name = "list_processes" then
    .ok (list_processes_text world.procs (args.limit.getD 10))
  else if name = "check_disk_usage" then .ok (check_disk_usage world.parts)
  else if name = "get_network_info" then .ok (get_network_info world.net)
  else if name = "run_command" then
    .ok (run_safe_command world.runner (args.command.getD ""))
  else .error ("Unknown tool: " ++ name)

/-- C6: `call_tool` with a name outside the five registered tools fails with
an unknown-tool error carrying the offending name, a registered name always
yields text, and an unknown name is the only input on which the dispatcher
signals an error. -/
theorem c6_unknown_tool (world : WorldEnv) (name : String) (args : Arguments) :
    (name ∉ toolNames →
        call_tool world name args = .error ("Unknown tool: " ++ name)) ∧
      (name ∈ toolNames → ∃ t, call_tool world name args = .ok t) ∧
      ∀ e, call_tool world name args = .error e →
        name ∉ toolNames ∧ e = "Unknown tool: " ++ name := by
  have hmem : name ∈ toolNames ↔ (name = "get_system_info" ∨
      name = "list_processes" ∨ name = "check_disk_usage" ∨
      name = "get_network_info" ∨ name = "run_command") := by
    simp [toolNames, list_tools]
  have hunk : name ∉ toolNames →
      call_tool world name args = .error ("Unknown tool: " ++ name) := by
    intro hn
    rw [hmem] at hn
    push_neg at hn
    obtain ⟨n1, n2, n3, n4, n5⟩ := hn
    rw [call_tool, if_neg n1, if_neg n2, if_neg n3, if_neg n4, if_neg n5]
  have hok : name ∈ toolNames → ∃ t, call_tool world name args = .ok t := by
    intro hn
    rw [hmem] at hn
    rcases hn with h | h | h | h | h <;> subst h <;> exact ⟨_, rfl⟩
  refine ⟨hunk, hok, fun e he => ?_⟩
  by_cases hn : name ∈ toolNames
  · obtain ⟨t, ht⟩ := hok hn
    rw [ht] at he
    exact Except.noConfusion he
  · have h2 := hunk hn
    rw [h2] at he
    injection he with h3
    exact ⟨hn, h3.symm⟩

/-- A concrete environment used by witnesses. -/
def emptyWorld : WorldEnv :=
  ⟨⟨"t0", "host", ⟨"Linux", "6.1", "v1", "x86_64", "p"⟩, ⟨"3.11", "CPython"⟩,
      none, none, none⟩,
    [], [], ⟨[], []⟩, fun _ => RunOutcome.timedOut⟩

theorem c6_unknown_tool_witness :
    call_tool emptyWorld "nonexistent_tool" ⟨none, none⟩ =
      .error ("Unknown tool: " ++ "nonexistent_tool") :=
  (c6_unknown_tool emptyWorld "nonexistent_tool" ⟨none, none⟩).1 (by decide)

/-- C9: the registry holds exactly five tools, with the registered names in
registration order, and the dispatcher applies the declared defaults: a
missing `limit` becomes 10 for `list_processes`, a missing `command` becomes
`""` for `run_command`. -/
theorem c9_registry_and_defaults (world : WorldEnv) (lim : Option Int)
    (cmd : Option String) :
    list_tools.length = 5 ∧
      list_tools.map ToolDescriptor.name =
        ["get_system_info", "list_processes", "check_disk_usage",
         "get_network_info", "run_command"] ∧
      call_tool world "list_processes" ⟨none, cmd⟩ =
        .ok (list_processes_text world.procs 10) ∧
      call_tool world "run_command" ⟨lim, none⟩ =
        .ok (run_safe_command world.runner "") :=
  ⟨rfl, rfl, rfl, rfl⟩

end LinuxMCP
